import Mathlib

/-! Verification of the gomon process-supervision and restart-coordination
subsystem: a shallow embedding of the restart classifier
(internal/watcher/watcher.go), the child-process supervisor
(internal/process/process.go, internal/process/process_posix.go and the
state-machine revision of childProcess.Start), and the IPC notifier
(internal/notification/notifier.go), together with theorems about the
behaviour of these operations.  Durations are modelled in nanoseconds,
matching Go's time.Duration. -/

set_option maxRecDepth 10000

namespace Gomon

/-- Model of Go's path/filepath.Match restricted to the pattern features the
repository's rule sets use: literal characters, the any-sequence wildcard
and the single-character wildcard (no character classes, no escapes).  The
names matched are base file names, so no separator handling is required.
The fuel argument makes the recursion structural; every step consumes at
least one character of the pattern or the name, so fuel equal to the
combined length plus one is always sufficient. -/
def globMatchAux : Nat → List Char → List Char → Bool
  | 0, _, _ => false
  | _ + 1, [], name => name.isEmpty
  | fuel + 1, '*' :: ps, [] => globMatchAux fuel ps []
  | fuel + 1, '*' :: ps, c :: cs =>
      globMatchAux fuel ps (c :: cs) || globMatchAux fuel ('*' :: ps) cs
  | fuel + 1, '?' :: ps, _ :: cs => globMatchAux fuel ps cs
  | fuel + 1, p :: ps, c :: cs => p == c && globMatchAux fuel ps cs
  | _ + 1, _ :: _, [] => false

/-- Entry point of the filepath.Match model: match a glob pattern against a
base file name. -/
def globMatch (pattern name : String) : Bool :=
  globMatchAux (pattern.length + name.length + 1) pattern.toList name.toList

/-- Model of Go's strings.HasPrefix: hasPrefix s pre is true when pre is a
prefix of s. -/
def hasPrefix (s pre : String) : Bool :=
  pre.toList.isPrefixOf s.toList

/-- Sentinel task name from internal/process/process.go: a generated-file
task equal to this string requests a hard restart. -/
def ForceHardRestart : String := "__hard_reload"

/-- Sentinel task name from internal/process/process.go: a generated-file
task equal to this string requests a soft restart. -/
def ForceSoftRestart : String := "__soft_reload"

/-- Notification types emitted by the watcher's file-change classifier
(internal/notification/notification.go, restricted to the types the
classifier produces). -/
inductive NotificationType
  | hardRestartRequested
  | softRestartRequested
  | oobTaskRequested
deriving DecidableEq

/-- A notification delivered to the watcher callback; only the fields the
classifier decides (type and message) are modelled — the ID and timestamp
fields are freshly generated metadata. -/
structure Notif where
  type : NotificationType
  message : String
deriving DecidableEq

/-- The classifier-relevant fields of internal/config/config.go Config. -/
structure Config where
  rootDirectory : String := ""
  hardReload : List String := []
  softReload : List String := []
  envFiles : List String := []
  generated : List (String × List String) := []
  excludePaths : List String := []
deriving DecidableEq

/-- The filesystemWatcher structure of internal/watcher/watcher.go.  The
generated rule set is a Go map map[string][]string; it is embedded as an
association list whose order stands for one admissible (unspecified) Go
map iteration order. -/
structure FilesystemWatcher where
  rootDirectory : String
  hardReload : List String
  softReload : List String
  envFiles : List String
  generated : List (String × List String)
  excludePaths : List String
deriving DecidableEq

/-- watcher.New (internal/watcher/watcher.go lines 46-66, without options):
copies the rule sets from the configuration and seeds the exclude-path
list with ".git", ".vscode" and ".idea" before appending the configured
excludes. -/
def watcherNew (cfg : Config) : FilesystemWatcher :=
  { rootDirectory := cfg.rootDirectory
    hardReload := cfg.hardReload
    softReload := cfg.softReload
    envFiles := cfg.envFiles
    generated := cfg.generated
    excludePaths := [".git", ".vscode", ".idea"] ++ cfg.excludePaths }

/-- The inner loop of the generated-file branch of processFileChange: one
notification per configured task, hard/soft restart for the sentinel task
names and an out-of-band task request otherwise. -/
def generatedTaskNotifs (tasks : List String) (relPath : String) : List Notif :=
  tasks.map fun task =>
    if task = ForceHardRestart then
      { type := NotificationType.hardRestartRequested, message := relPath }
    else if task = ForceSoftRestart then
      { type := NotificationType.softRestartRequested, message := relPath }
    else
      { type := NotificationType.oobTaskRequested, message := task }

/-- processFileChange (internal/watcher/watcher.go lines 111-205), returning
the list of callback invocations in order.  relPath is the changed path
relative to the root directory and base its base file name (both computed
by the Go standard library from the event path).  Faithful to the source,
the loop over the generated rules returns unconditionally at the end of
its first iteration — the return statement sits at the bottom of the loop
body, outside the match test — so when the generated rule set is non-empty
only its first iterated entry is consulted and the env-file category and
the unhandled default are never reached. -/
def processFileChange (w : FilesystemWatcher) (relPath base : String) : List Notif :=
  if w.excludePaths.any fun ex => hasPrefix relPath ex then []
  else if w.hardReload.any fun patt => globMatch patt base then
    [{ type := NotificationType.hardRestartRequested, message := relPath }]
  else if w.softReload.any fun patt => globMatch patt base then
    [{ type := NotificationType.softRestartRequested, message := relPath }]
  else
    match w.generated with
    | (patt, tasks) :: _ =>
        if globMatch patt base then generatedTaskNotifs tasks relPath else []
    | [] =>
        if w.envFiles.any fun envFile => base = envFile then
          [{ type := NotificationType.hardRestartRequested, message := relPath }]
        else []

/-! Supervisor constants (internal/process/process.go lines 68-70 and the
killTimeout field initialised in New; app.go RunChildProcess lines 215-218
for the retry policy ceiling).  All values in nanoseconds. -/

/-- initialBackoff = 50 * time.Millisecond. -/
def initialBackoff : Nat := 50000000

/-- maxBackoff = 5 * time.Second. -/
def maxBackoff : Nat := 5000000000

/-- killTimeout = 5 * time.Second (set in process.New). -/
def defaultKillTimeout : Nat := 5000000000

/-- backoffPolicy.MaxElapsedTime = 60 * time.Second, the retry ceiling
configured in app.RunChildProcess (internal/app/app.go line 218). -/
def maxElapsedTime : Nat := 60000000000

/-- The action the exit handler of startChild takes when the child process
exits (internal/process/process.go lines 315-326): either sleep for a wait
interval and start the child again, carrying the next backoff value, or
finish the supervised run. -/
inductive ExitAction
  | restartAfter (wait next : Nat)
  | finishRun
deriving DecidableEq

/-- The tail of startChild's goroutine after the child exits
(internal/process/process.go lines 315-326): when the shutdown was not
requested, the backoff is clipped to maxBackoff, the goroutine sleeps for
the clipped value, calls startChild again and then doubles the stored
backoff; when a shutdown was expected, the outer run completes.  There is
no other branch: the handler never gives up and never raises an error. -/
def childExitHandler (isExpectingShutdown : Bool) (backoff : Nat) : ExitAction :=
  if !isExpectingShutdown then
    let clipped := if maxBackoff < backoff then maxBackoff else backoff
    ExitAction.restartAfter clipped (clipped * 2)
  else
    ExitAction.finishRun

/-- The stored backoff value at the k-th consecutive unexpected exit (with
exits numbered from 0): Start sets backoff to initialBackoff before the
first spawn, and each unexpected exit replaces it with the value carried
by the exit handler's restart action. -/
def backoffSeq : Nat → Nat
  | 0 => initialBackoff
  | k + 1 =>
      match childExitHandler false (backoffSeq k) with
      | ExitAction.restartAfter _ next => next
      | ExitAction.finishRun => backoffSeq k

/-- The wait interval slept after the k-th consecutive unexpected exit,
before spawn attempt k+1 (the initial spawn being attempt 0). -/
def waitInterval (k : Nat) : Nat :=
  match childExitHandler false (backoffSeq k) with
  | ExitAction.restartAfter wait _ => wait
  | ExitAction.finishRun => 0

/-- Total backoff time slept across the first k+1 consecutive unexpected
exits. -/
def cumulativeWait : Nat → Nat
  | 0 => waitInterval 0
  | k + 1 => cumulativeWait k + waitInterval (k + 1)

/-- The mutable supervisor fields of the childProcess structure of
internal/process/process.go that the restart operations read or write:
the isStarting / isStarted / isExpectingShutdown atomics, the backoff
duration, the child command slot (modelled by the child's process id when
a live process is attached, none when the slot is empty) and the IPC
client-connection state. -/
structure Supervisor where
  isStarting : Bool
  isStarted : Bool
  isExpectingShutdown : Bool
  backoff : Nat
  childPid : Option Nat
  ipcConnected : Bool
deriving DecidableEq

/-- Process signals sent by the supervisor. -/
inductive Sig
  | sigterm
  | sigkill
deriving DecidableEq

/-- Environment resolving the external events closeChild races against:
the outcome of the SIGTERM send, the instant (nanoseconds after the
signal) at which childCmdClosed reports the child gone (none when it never
does), whether the command slot is still occupied when the timeout fires,
and the outcome of the SIGKILL send. -/
structure CloseEnv where
  termError : Option String
  childExitTime : Option Nat
  stillRunningAtTimeout : Bool
  killError : Option String
deriving DecidableEq

/-- Result of closeChild: the updated supervisor fields, the returned
error, the time at which the call returns (nanoseconds after the SIGTERM
send) and the signals sent, each with its target (a negative pid targets
the whole process group). -/
structure CloseResult where
  sup : Supervisor
  error : Option String
  retTime : Nat
  signals : List (Int × Sig)
deriving DecidableEq

/-- The timeout branch of closeChild's select (internal/process/process.go
lines 353-362): re-read the command slot; when the child is still
attached, send SIGKILL to the negative process-group id, tolerating the
"os: process already finished" error; when the slot was already cleared,
just log that the child closed. -/
def closeChildTimeout (s1 : Supervisor) (pid : Nat) (env : CloseEnv)
    (killTimeout : Nat) : CloseResult :=
  if env.stillRunningAtTimeout then
    match env.killError with
    | none =>
        { sup := s1, error := none, retTime := killTimeout
          signals := [(-(pid : Int), Sig.sigterm), (-(pid : Int), Sig.sigkill)] }
    | some e =>
        if e = "os: process already finished" then
          { sup := s1, error := none, retTime := killTimeout
            signals := [(-(pid : Int), Sig.sigterm), (-(pid : Int), Sig.sigkill)] }
        else
          { sup := s1, error := some ("killing child process: " ++ e)
            retTime := killTimeout
            signals := [(-(pid : Int), Sig.sigterm), (-(pid : Int), Sig.sigkill)] }
  else
    { sup := { s1 with childPid := none }, error := none, retTime := killTimeout
      signals := [(-(pid : Int), Sig.sigterm)] }

/-- closeChild (internal/process/process.go lines 331-365): a no-op when no
command is attached; otherwise set the expecting-shutdown flag, send
SIGTERM to the negative process-group id (returning its error, if any),
then race the childCmdClosed channel against time.After killTimeout: the
graceful branch returns when the child is confirmed closed, the timeout
branch escalates to SIGKILL. -/
def closeChild (s : Supervisor) (env : CloseEnv) (killTimeout : Nat) : CloseResult :=
  match s.childPid with
  | none => { sup := s, error := none, retTime := 0, signals := [] }
  | some pid =>
      let s1 := { s with isExpectingShutdown := true }
      match env.termError with
      | some e =>
          { sup := s1, error := some e, retTime := 0
            signals := [(-(pid : Int), Sig.sigterm)] }
      | none =>
          match env.childExitTime with
          | some t =>
              if t < killTimeout then
                { sup := { s1 with childPid := none }, error := none, retTime := t
                  signals := [(-(pid : Int), Sig.sigterm)] }
              else closeChildTimeout s1 pid env killTimeout
          | none => closeChildTimeout s1 pid env killTimeout

/-- Model of the golang-ipc server Write call used by SoftRestart: the
library returns an error when no client connection is established. -/
def ipcWrite (connected : Bool) : Option String :=
  if connected then none else some "Not Connected"

/-- Result of SoftRestart: the supervisor fields after the call, the
returned error, whether a warning was logged and whether a reload message
was handed to the IPC channel. -/
structure SoftRestartResult where
  sup : Supervisor
  error : Option String
  warnLogged : Bool
  reloadSent : Bool
deriving DecidableEq

/-- SoftRestart (internal/process/process.go lines 195-209): a no-op while
isStarting is set; otherwise write a reload message to the IPC server; a
write failure is only logged — the function returns nil in every case and
mutates no supervisor field. -/
def softRestart (s : Supervisor) (_path : String) : SoftRestartResult :=
  if s.isStarting then
    { sup := s, error := none, warnLogged := false, reloadSent := false }
  else
    match ipcWrite s.ipcConnected with
    | some _ => { sup := s, error := none, warnLogged := true, reloadSent := false }
    | none => { sup := s, error := none, warnLogged := false, reloadSent := true }

/-- The synchronous prefix of startChild (internal/process/process.go lines
245-247): clear the expecting-shutdown flag, set isStarting and clear
isStarted before the spawn goroutine is launched. -/
def startChildPrefix (s : Supervisor) : Supervisor :=
  { s with isExpectingShutdown := false, isStarting := true, isStarted := false }

/-- Result of HardRestart: the supervisor fields after the call, the
returned error, whether closeChild was invoked and whether a new spawn was
initiated via startChild. -/
structure RestartResult where
  sup : Supervisor
  error : Option String
  closeCalled : Bool
  startCalled : Bool
deriving DecidableEq

/-- HardRestart (internal/process/process.go lines 174-193): a no-op
returning nil while isStarting is set; otherwise stop the current child
via closeChild (propagating its error), reset the backoff to
initialBackoff and start a new child. -/
def hardRestart (s : Supervisor) (_path : String) (env : CloseEnv)
    (killTimeout : Nat) : RestartResult :=
  if s.isStarting then
    { sup := s, error := none, closeCalled := false, startCalled := false }
  else
    match (closeChild s env killTimeout).error with
    | some e =>
        { sup := (closeChild s env killTimeout).sup
          error := some ("terminating child process: " ++ e)
          closeCalled := true, startCalled := false }
    | none =>
        { sup := startChildPrefix { (closeChild s env killTimeout).sup with
            backoff := initialBackoff }
          error := none, closeCalled := true, startCalled := true }

/-- The process lifecycle states of the state-machine revision of the
supervisor (ProcessState in the childProcess.Start source). -/
inductive ProcessState
  | stopped
  | starting
  | started
  | stopping
deriving DecidableEq

/-- Result of the posix Stop method: the state after the call, the
returned error, the time at which the call returns (nanoseconds after the
terminate request) and whether the kill channel was signalled. -/
structure StopResult where
  state : ProcessState
  error : Option String
  retTime : Nat
  killRequested : Bool
deriving DecidableEq

/-- Stop (internal/process/process_posix.go lines 29-60): an error when the
state is not Started; otherwise transition to Stopping, request graceful
termination and race the child-closed signal against time.After
killTimeout, signalling the kill channel on the timeout branch.
childCloseTime is the instant at which the child is confirmed closed
(none when it never is). -/
def stop (st : ProcessState) (childCloseTime : Option Nat)
    (killTimeout : Nat) : StopResult :=
  if st ≠ ProcessState.started then
    { state := st, error := some "process is not running", retTime := 0
      killRequested := false }
  else
    match childCloseTime with
    | some t =>
        if t < killTimeout then
          { state := ProcessState.stopping, error := none, retTime := t
            killRequested := false }
        else
          { state := ProcessState.stopping, error := none, retTime := killTimeout
            killRequested := true }
    | none =>
        { state := ProcessState.stopping, error := none, retTime := killTimeout
          killRequested := true }

/-- Result of the state-machine revision of childProcess.Start: the state
when the call returns, the returned error and whether the child command
was spawned. -/
structure StartResult where
  state : ProcessState
  error : Option String
  spawned : Bool
deriving DecidableEq

/-- The prestart loop of childProcess.Start: run each configured prestart
task in order (each input is the task's error outcome) and return the
first failure, wrapped as "running prestart task: ...". -/
def runPrestartTasks : List (Option String) → Option String
  | [] => none
  | none :: rest => runPrestartTasks rest
  | some e :: _ => some ("running prestart task: " ++ e)

/-- childProcess.Start of the state-machine revision (the source of
internal/process/process_posix.go's childProcess, Start lines 91-135): an
error when the state is not Stopped; otherwise the prestart tasks run
synchronously before any state change or spawn, and a failure aborts the
attempt and is returned; then the state becomes Starting, the command is
spawned (a spawn error is returned with the state left in Starting), the
state becomes Started, and the call blocks until the child exits, setting
the state back to Stopped and returning nil. -/
def start (st : ProcessState) (prestartResults : List (Option String))
    (spawnError : Option String) : StartResult :=
  if st ≠ ProcessState.stopped then
    { state := st, error := some "process is already running", spawned := false }
  else
    match runPrestartTasks prestartResults with
    | some e => { state := ProcessState.stopped, error := some e, spawned := false }
    | none =>
        match spawnError with
        | some e =>
            { state := ProcessState.starting, error := some e, spawned := false }
        | none =>
            { state := ProcessState.stopped, error := none, spawned := true }

/-- Notifier.SendSoftRestart (internal/notification/notifier.go lines
95-108): returns an error when the IPC server has no connected client,
otherwise writes the hint to the IPC channel. -/
def sendSoftRestart (connected : Bool) (_hint : String) : Option String :=
  if !connected then some "IPC server is not connected"
  else ipcWrite connected

/-- The soft-restart arm of App.ProcessRestartEvents (internal/app/app.go
lines 241-246): an error from SendSoftRestart is logged as a warning and
the event loop continues; the returned value is whether a warning was
logged — no error escapes the handler. -/
def appSoftRestartEvent (connected : Bool) (hint : String) : Bool :=
  match sendSoftRestart connected hint with
  | some _ => true
  | none => false

/-- Configuration used to exercise the classifier on an env-file change
with a non-empty generated rule set: hard reload on Go sources, soft
reload on templates, one generated-file rule and one watched env file. -/
def c1Config : Config :=
  { rootDirectory := "/proj"
    hardReload := ["*.go"]
    softReload := ["*.html"]
    envFiles := [".env"]
    generated := [("*.sql", ["sqlc generate"])]
    excludePaths := [] }

/-- The same configuration with the generated rule set empty. -/
def c1ConfigNoGenerated : Config :=
  { c1Config with generated := [] }

/-! Theorems. -/

/-- The clip applied by the exit handler equals a minimum. -/
theorem clip_eq_min (b : Nat) :
    (if maxBackoff < b then maxBackoff else b) = min b maxBackoff := by
  split <;> omega

/-- On an unexpected exit the handler always restarts: it sleeps the
clipped backoff and doubles the clipped value. -/
theorem childExitHandler_false (b : Nat) :
    childExitHandler false b =
      ExitAction.restartAfter (min b maxBackoff) (min b maxBackoff * 2) := by
  simp [childExitHandler, clip_eq_min]

/-- Recurrence satisfied by the stored backoff across unexpected exits. -/
theorem backoffSeq_succ (k : Nat) :
    backoffSeq (k + 1) = min (backoffSeq k) maxBackoff * 2 := by
  simp [backoffSeq, childExitHandler_false]

/-- The clipped backoff at the k-th unexpected exit is the capped power of
two of the initial backoff. -/
theorem min_backoffSeq (k : Nat) :
    min (backoffSeq k) maxBackoff = min (initialBackoff * 2 ^ k) maxBackoff := by
  induction k with
  | zero => simp [backoffSeq]
  | succ k ih =>
      rw [backoffSeq_succ, ih, pow_succ, ← mul_assoc]
      generalize initialBackoff * 2 ^ k = a
      omega

/-- Claim C2: after the k-th consecutive unexpected child exit (exits
numbered from 0, with no intervening explicit restart), the wait interval
slept before the (k+1)-th spawn attempt equals min(initial * 2^k, max),
where initial is the configured 50ms initial backoff and max the
configured 5s maximum. -/
theorem backoff_wait_interval_formula (k : Nat) :
    initialBackoff = 50000000 ∧ maxBackoff = 5000000000 ∧
      waitInterval k = min (initialBackoff * 2 ^ k) maxBackoff := by
  refine ⟨rfl, rfl, ?_⟩
  simp [waitInterval, childExitHandler_false]
  exact min_backoffSeq k

/-- Claim C3 counterexample: after 18 consecutive unexpected exits the
cumulative backoff time already exceeds the 60s retry ceiling configured
in app.RunChildProcess, yet the exit handler still restarts on the next
unexpected exit — the crash loop of startChild never stops retrying and
never surfaces a SystemError, contradicting the claim that once the
ceiling is exceeded the supervisor gives up. -/
theorem crash_loop_restarts_beyond_ceiling :
    maxElapsedTime < cumulativeWait 17 ∧
      childExitHandler false (backoffSeq 18) =
        ExitAction.restartAfter maxBackoff (maxBackoff * 2) := by
  constructor
  · decide
  · decide

/-- Claim C3 amended: on every unexpected exit (expecting-shutdown flag
unset) the supervisor unconditionally restarts after sleeping the backoff
clipped to the 5s maximum and doubles the clipped value; no cumulative
elapsed-time ceiling is consulted and the handler never finishes the run
or raises an error, whatever the current backoff value. -/
theorem unexpected_exit_always_restarts (b : Nat) :
    childExitHandler false b =
      ExitAction.restartAfter (min b maxBackoff) (min b maxBackoff * 2) :=
  childExitHandler_false b

/-- Claim C1 code evaluation: on a change to the watched env file .env,
with the generated rule set non-empty (one rule whose pattern does not
match), the classifier of processFileChange produces no notification at
all — the env-file category is unreachable because the generated-rules
loop returns at the end of its first iteration regardless of a match —
whereas the identical configuration with no generated rules produces the
hard-restart request the claim (and the rule-order documentation)
promises. -/
theorem generated_rules_mask_env_files :
    processFileChange (watcherNew c1Config) ".env" ".env" = [] ∧
      processFileChange (watcherNew c1ConfigNoGenerated) ".env" ".env" =
        [{ type := NotificationType.hardRestartRequested, message := ".env" }] := by
  constructor
  · decide
  · decide

/-- Claim C4: with a child attached and the graceful terminate signal
delivered without error, closeChild returns no later than the kill
timeout; the first signal sent is SIGTERM to the negative process-group
id; when the child is never confirmed closed and is still attached at the
timeout, SIGKILL is sent to the negative process-group id, and a kill
failure reading "os: process already finished" is treated as success; a
successful return means the child was confirmed gone or the forceful kill
was issued; and the posix Stop select likewise returns no later than the
kill timeout. -/
theorem stop_bound_and_kill_escalation (s : Supervisor) (env : CloseEnv)
    (kt : Nat) (pid : Nat) (hrun : s.childPid = some pid)
    (hterm : env.termError = none) :
    (closeChild s env kt).retTime ≤ kt ∧
    (closeChild s env kt).signals.head? = some (-(pid : Int), Sig.sigterm) ∧
    (env.childExitTime = none → env.stillRunningAtTimeout = true →
      (-(pid : Int), Sig.sigkill) ∈ (closeChild s env kt).signals) ∧
    (env.childExitTime = none → env.stillRunningAtTimeout = true →
      env.killError = some "os: process already finished" →
      (closeChild s env kt).error = none) ∧
    ((closeChild s env kt).error = none →
      (closeChild s env kt).sup.childPid = none ∨
        (-(pid : Int), Sig.sigkill) ∈ (closeChild s env kt).signals) ∧
    (stop ProcessState.started env.childExitTime kt).retTime ≤ kt := by
  rcases env with ⟨terr, cet, srt, kerr⟩
  simp only at hterm
  subst hterm
  simp only [closeChild, closeChildTimeout, stop, hrun]
  rcases cet with _ | t
  · rcases srt with _ | _
    · simp
    · rcases kerr with _ | e
      · simp
      · by_cases he : e = "os: process already finished" <;> simp [he]
  · by_cases ht : t < kt
    · simp [ht]
      omega
    · simp [ht]
      rcases srt with _ | _
      · simp
      · rcases kerr with _ | e
        · simp
        · by_cases he : e = "os: process already finished" <;> simp [he]

/-- Claim C4 witness: a concrete supervisor with child pid 42, a child
that never confirms exit and a forceful kill failing with the
already-finished message. -/
theorem stop_bound_and_kill_escalation_witness :
    (Supervisor.mk false true false initialBackoff (some 42) false).childPid =
        some 42 ∧
      (CloseEnv.mk none none true
          (some "os: process already finished")).termError = none ∧
      ((closeChild (Supervisor.mk false true false initialBackoff (some 42) false)
            (CloseEnv.mk none none true (some "os: process already finished"))
            defaultKillTimeout).retTime ≤ defaultKillTimeout ∧
        (closeChild (Supervisor.mk false true false initialBackoff (some 42) false)
            (CloseEnv.mk none none true (some "os: process already finished"))
            defaultKillTimeout).signals.head? = some (-(42 : Int), Sig.sigterm) ∧
        ((CloseEnv.mk none none true
              (some "os: process already finished")).childExitTime = none →
          (CloseEnv.mk none none true
              (some "os: process already finished")).stillRunningAtTimeout = true →
          (-(42 : Int), Sig.sigkill) ∈
            (closeChild (Supervisor.mk false true false initialBackoff (some 42) false)
                (CloseEnv.mk none none true (some "os: process already finished"))
                defaultKillTimeout).signals) ∧
        ((CloseEnv.mk none none true
              (some "os: process already finished")).childExitTime = none →
          (CloseEnv.mk none none true
              (some "os: process already finished")).stillRunningAtTimeout = true →
          (CloseEnv.mk none none true
              (some "os: process already finished")).killError =
              some "os: process already finished" →
          (closeChild (Supervisor.mk false true false initialBackoff (some 42) false)
              (CloseEnv.mk none none true (some "os: process already finished"))
              defaultKillTimeout).error = none) ∧
        ((closeChild (Supervisor.mk false true false initialBackoff (some 42) false)
              (CloseEnv.mk none none true (some "os: process already finished"))
              defaultKillTimeout).error = none →
          (closeChild (Supervisor.mk false true false initialBackoff (some 42) false)
              (CloseEnv.mk none none true (some "os: process already finished"))
              defaultKillTimeout).sup.childPid = none ∨
            (-(42 : Int), Sig.sigkill) ∈
              (closeChild (Supervisor.mk false true false initialBackoff (some 42) false)
                  (CloseEnv.mk none none true (some "os: process already finished"))
                  defaultKillTimeout).signals) ∧
        (stop ProcessState.started
            (CloseEnv.mk none none true
              (some "os: process already finished")).childExitTime
            defaultKillTimeout).retTime ≤ defaultKillTimeout) :=
  ⟨rfl, rfl,
    stop_bound_and_kill_escalation
      (Supervisor.mk false true false initialBackoff (some 42) false)
      (CloseEnv.mk none none true (some "os: process already finished"))
      defaultKillTimeout 42 rfl rfl⟩

/-- Claim C5: on a supervisor whose IPC channel has never seen a client
connection, SoftRestart called outside the Starting state returns nil,
leaves every supervisor field unchanged and only logs a warning; and in
the notifier architecture the app-level soft-restart handler downgrades
the SendSoftRestart disconnection error to a logged warning rather than
propagating it. -/
theorem softRestart_disconnected_is_noop (s : Supervisor) (path : String)
    (hconn : s.ipcConnected = false) (hstart : s.isStarting = false) :
    softRestart s path =
      { sup := s, error := none, warnLogged := true, reloadSent := false } ∧
      appSoftRestartEvent false path = true := by
  constructor
  · simp [softRestart, hstart, ipcWrite, hconn]
  · simp [appSoftRestartEvent, sendSoftRestart]

/-- Claim C5 witness: a concrete idle supervisor with no IPC connection. -/
theorem softRestart_disconnected_is_noop_witness :
    (Supervisor.mk false false false initialBackoff none false).ipcConnected =
        false ∧
      (Supervisor.mk false false false initialBackoff none false).isStarting =
        false ∧
      (softRestart (Supervisor.mk false false false initialBackoff none false)
          "index.html" =
        { sup := Supervisor.mk false false false initialBackoff none false
          error := none, warnLogged := true, reloadSent := false } ∧
        appSoftRestartEvent false "index.html" = true) :=
  ⟨rfl, rfl,
    softRestart_disconnected_is_noop
      (Supervisor.mk false false false initialBackoff none false)
      "index.html" rfl rfl⟩

/-- Claim C6: HardRestart called while the supervisor is Starting returns
nil and has no effect at all — closeChild is not invoked, no new spawn is
initiated and every supervisor field, the backoff included, is left
unchanged. -/
theorem hardRestart_noop_while_starting (s : Supervisor) (path : String)
    (env : CloseEnv) (kt : Nat) (h : s.isStarting = true) :
    hardRestart s path env kt =
      { sup := s, error := none, closeCalled := false, startCalled := false } := by
  simp [hardRestart, h]

/-- Claim C6 witness: a concrete supervisor in the Starting state with an
inflated backoff. -/
theorem hardRestart_noop_while_starting_witness :
    (Supervisor.mk true false false maxBackoff (some 7) true).isStarting = true ∧
      hardRestart (Supervisor.mk true false false maxBackoff (some 7) true)
          "main.go" (CloseEnv.mk none (some 0) false none) defaultKillTimeout =
        { sup := Supervisor.mk true false false maxBackoff (some 7) true
          error := none, closeCalled := false, startCalled := false } :=
  ⟨rfl,
    hardRestart_noop_while_starting
      (Supervisor.mk true false false maxBackoff (some 7) true) "main.go"
      (CloseEnv.mk none (some 0) false none) defaultKillTimeout rfl⟩

/-- Claim C7: a HardRestart that passes the Starting guard and whose
closeChild step succeeds initiates a new spawn with the backoff reset to
its initial value, whatever backoff the preceding crashes had
accumulated. -/
theorem hardRestart_resets_backoff (s : Supervisor) (path : String)
    (env : CloseEnv) (kt : Nat) (h : s.isStarting = false)
    (hc : (closeChild s env kt).error = none) :
    (hardRestart s path env kt).startCalled = true ∧
      (hardRestart s path env kt).sup.backoff = initialBackoff ∧
      (hardRestart s path env kt).sup.isStarting = true ∧
      (hardRestart s path env kt).error = none := by
  simp [hardRestart, h, hc, startChildPrefix]

/-- Claim C7 witness: a supervisor whose backoff has grown to the maximum
and whose child closes gracefully. -/
theorem hardRestart_resets_backoff_witness :
    (Supervisor.mk false true false maxBackoff (some 7) true).isStarting = false ∧
      (closeChild (Supervisor.mk false true false maxBackoff (some 7) true)
          (CloseEnv.mk none (some 0) false none) defaultKillTimeout).error = none ∧
      ((hardRestart (Supervisor.mk false true false maxBackoff (some 7) true)
            "main.go" (CloseEnv.mk none (some 0) false none)
            defaultKillTimeout).startCalled = true ∧
        (hardRestart (Supervisor.mk false true false maxBackoff (some 7) true)
            "main.go" (CloseEnv.mk none (some 0) false none)
            defaultKillTimeout).sup.backoff = initialBackoff ∧
        (hardRestart (Supervisor.mk false true false maxBackoff (some 7) true)
            "main.go" (CloseEnv.mk none (some 0) false none)
            defaultKillTimeout).sup.isStarting = true ∧
        (hardRestart (Supervisor.mk false true false maxBackoff (some 7) true)
            "main.go" (CloseEnv.mk none (some 0) false none)
            defaultKillTimeout).error = none) :=
  ⟨rfl, by decide,
    hardRestart_resets_backoff
      (Supervisor.mk false true false maxBackoff (some 7) true) "main.go"
      (CloseEnv.mk none (some 0) false none) defaultKillTimeout rfl (by decide)⟩

/-- Claim C8: Stop called in any state other than Started returns the
"process is not running" error and leaves the state unchanged; from
Started it transitions the state to Stopping and returns no error. -/
theorem stop_guard_and_transition (st : ProcessState) (ct : Option Nat)
    (kt : Nat) :
    (st ≠ ProcessState.started →
      stop st ct kt =
        { state := st, error := some "process is not running", retTime := 0
          killRequested := false }) ∧
    (st = ProcessState.started →
      (stop st ct kt).state = ProcessState.stopping ∧
        (stop st ct kt).error = none) := by
  constructor
  · intro h
    simp [stop, h]
  · intro h
    subst h
    rcases ct with _ | t
    · simp [stop]
    · by_cases ht : t < kt <;> simp [stop, ht]

/-- Claim C8 witness: Stop from Stopped errors and changes nothing; Stop
from Started transitions to Stopping without error. -/
theorem stop_guard_and_transition_witness :
    stop ProcessState.stopped none defaultKillTimeout =
        { state := ProcessState.stopped, error := some "process is not running"
          retTime := 0, killRequested := false } ∧
      (stop ProcessState.started none defaultKillTimeout).state =
          ProcessState.stopping ∧
        (stop ProcessState.started none defaultKillTimeout).error = none :=
  ⟨(stop_guard_and_transition ProcessState.stopped none defaultKillTimeout).1
      (by decide),
    (stop_guard_and_transition ProcessState.started none defaultKillTimeout).2
      rfl⟩

/-- Claim C9: Start called in any state other than Stopped returns the
"process is already running" error without spawning; and when a prestart
task fails, Start from Stopped aborts before the spawn, leaves the state
Stopped and returns the prestart failure. -/
theorem start_guard_and_prestart_abort (st : ProcessState)
    (pre : List (Option String)) (sp : Option String) :
    (st ≠ ProcessState.stopped →
      start st pre sp =
        { state := st, error := some "process is already running"
          spawned := false }) ∧
    (∀ e, runPrestartTasks pre = some e →
      start ProcessState.stopped pre sp =
        { state := ProcessState.stopped, error := some e, spawned := false }) := by
  constructor
  · intro h
    simp [start, h]
  · intro e he
    simp [start, he]

/-- Claim C9 witness: Start from Started errors, and a failing prestart
task aborts Start from Stopped with the wrapped failure and no spawn. -/
theorem start_guard_and_prestart_abort_witness :
    start ProcessState.started [some "exit status 1"] none =
        { state := ProcessState.started
          error := some "process is already running", spawned := false } ∧
      start ProcessState.stopped [some "exit status 1"] none =
        { state := ProcessState.stopped
          error := some "running prestart task: exit status 1"
          spawned := false } :=
  ⟨(start_guard_and_prestart_abort ProcessState.started
        [some "exit status 1"] none).1 (by decide),
    (start_guard_and_prestart_abort ProcessState.started
        [some "exit status 1"] none).2
      "running prestart task: exit status 1" rfl⟩

/-- Claim C10: for every configuration, the watcher built by New carries
".git", ".vscode" and ".idea" in its exclude-path list, and any changed
file whose relative path begins with one of these names is classified to
no action at all. -/
theorem default_excludes_ignore (cfg : Config) (relPath base : String)
    (h : ([".git", ".vscode", ".idea"].any fun ex => hasPrefix relPath ex) =
      true) :
    (".git" ∈ (watcherNew cfg).excludePaths ∧
      ".vscode" ∈ (watcherNew cfg).excludePaths ∧
      ".idea" ∈ (watcherNew cfg).excludePaths) ∧
      processFileChange (watcherNew cfg) relPath base = [] := by
  constructor
  · simp [watcherNew]
  · have hany :
        ((watcherNew cfg).excludePaths.any fun ex => hasPrefix relPath ex) =
          true := by
      simp only [watcherNew, List.any_append, h, Bool.true_or]
    simp [processFileChange, hany]

/-- Claim C10 witness: a configuration with no configured excludes still
ignores a change under .git. -/
theorem default_excludes_ignore_witness :
    (([".git", ".vscode", ".idea"].any fun ex =>
        hasPrefix ".git/config" ex) = true) ∧
      ((".git" ∈ (watcherNew c1ConfigNoGenerated).excludePaths ∧
        ".vscode" ∈ (watcherNew c1ConfigNoGenerated).excludePaths ∧
        ".idea" ∈ (watcherNew c1ConfigNoGenerated).excludePaths) ∧
        processFileChange (watcherNew c1ConfigNoGenerated) ".git/config"
            "config" = []) :=
  ⟨by decide,
    default_excludes_ignore c1ConfigNoGenerated ".git/config" "config"
      (by decide)⟩

end Gomon
